import Mathlib

/-!
Shallow embedding of the validation core of `src/src/main.ts`
(`TypeCheckerPlugin`): raw frontmatter values, the type inferrer
(`getValueType`), the type validator (`validatePropertyType`), the
date-shape and time-component tests (`isValidDate`, `hasTimeComponent`),
and the cached per-file validation (`validateFile`).

JavaScript numbers are modelled symbolically: NaN, the two infinities and
finite values, which is what the code's `typeof v === "number"` /
`isNaN(v)` tests distinguish.  The host's `Date.parse` (a runtime builtin,
not repository code) is modelled as an explicit boolean oracle parameter
`dp : String → Bool`, standing for `!isNaN(Date.parse(s))`.
-/

namespace TypeChecker

/-- A JavaScript number as far as the code observes it: `isNaN` separates
`nan` from the rest; the infinities pass `typeof v === "number" && !isNaN(v)`. -/
inductive JSNumber where
  | nan
  | posInf
  | negInf
  | finite (q : ℚ)
deriving DecidableEq

/-- `isNaN(n)` for an argument already of number type. -/
def jsIsNaN : JSNumber → Bool
  | .nan => true
  | _ => false

/-- A raw frontmatter value: null/undefined, string, number, boolean, or an
array of values (nested maps are out of the validated domain). -/
inductive Value where
  | vnull
  | vstr (s : String)
  | vnum (n : JSNumber)
  | vbool (b : Bool)
  | varr (elems : List Value)

/-- `typeof value` (both `null` and arrays give `"object"` in JavaScript). -/
def jsTypeof : Value → String
  | .vnull => "object"
  | .vstr _ => "string"
  | .vnum _ => "number"
  | .vbool _ => "boolean"
  | .varr _ => "object"

/-- `typeof value === "string"`. -/
def isStringV : Value → Bool
  | .vstr _ => true
  | _ => false

/-- `v.startsWith("#")` on a string value (false on non-strings; in the code
this is only evaluated after a string typeof guard). -/
def startsWithHash : Value → Bool
  | .vstr s =>
      match s.data with
      | c :: _ => c == '#'
      | [] => false
  | _ => false

/-- `typeof value === "number" && !isNaN(value)`. -/
def isNumberNonNaN : Value → Bool
  | .vnum n => ! jsIsNaN n
  | _ => false

/-- `typeof value === "boolean"`. -/
def isBooleanV : Value → Bool
  | .vbool _ => true
  | _ => false

/-- The regex `^\d{4}-\d{2}-\d{2}$` from `isValidDate` (main.ts:296). -/
def dateShape : List Char → Bool
  | [a, b, c, d, e, f, g, h, i, j] =>
      a.isDigit && b.isDigit && c.isDigit && d.isDigit && e == '-' &&
      f.isDigit && g.isDigit && h == '-' && i.isDigit && j.isDigit
  | _ => false

/-- The optional group `(:\d{2})?` of the ISO datetime regex.  Greedy
matching is faithful here: if the remainder starts with a colon no later
part of the regex (`(\.\d{3})?Z?$`) could consume it, so the group must
match; otherwise it matches empty. -/
def optSecs : List Char → Option (List Char)
  | ':' :: rest =>
      match rest with
      | a :: b :: r => if a.isDigit && b.isDigit then some r else none
      | _ => none
  | l => some l

/-- The optional group `(\.\d{3})?`, same greedy-is-faithful argument with
the dot in place of the colon. -/
def optMillis : List Char → Option (List Char)
  | '.' :: rest =>
      match rest with
      | a :: b :: c :: r => if a.isDigit && b.isDigit && c.isDigit then some r else none
      | _ => none
  | l => some l

/-- The tail `Z?$` of the ISO datetime regex. -/
def endZ : List Char → Bool
  | [] => true
  | ['Z'] => true
  | _ => false

/-- The regex `^\d{4}-\d{2}-\d{2}T\d{2}:\d{2}(:\d{2})?(\.\d{3})?Z?$` from
`isValidDate` (main.ts:297-298). -/
def datetimeShape : List Char → Bool
  | a :: b :: c :: d :: '-' :: e :: f :: '-' :: g :: h :: 'T' :: i :: j :: ':' :: k :: l :: rest =>
      a.isDigit && b.isDigit && c.isDigit && d.isDigit && e.isDigit && f.isDigit &&
      g.isDigit && h.isDigit && i.isDigit && j.isDigit && k.isDigit && l.isDigit &&
      (match optSecs rest with
       | none => false
       | some r1 =>
         match optMillis r1 with
         | none => false
         | some r2 => endZ r2)
  | _ => false

/-- `isValidDate` (main.ts:293-304): the string typeof guard, the two
regexes, and the `!isNaN(Date.parse(value))` fallback modelled by the
oracle `dp`. -/
def isValidDate (dp : String → Bool) (value : Value) : Bool :=
  match value with
  | .vstr s => dateShape s.data || datetimeShape s.data || dp s
  | _ => false

/-- One position of the unanchored regex `\d{1,2}:\d{2}`: a digit, a colon
and two digits start here.  (A two-digit-hour match contains a one-digit
match one position later, so testing `\d:\d{2}` at every position is
equivalent to the `\d{1,2}` form.) -/
def hhmmAt : List Char → Bool
  | a :: b :: c :: d :: _ => a.isDigit && b == ':' && c.isDigit && d.isDigit
  | _ => false

/-- `/\d{1,2}:\d{2}/.test(s)`: some position of the string starts a
digit-colon-digit-digit run. -/
def hasHHMM : List Char → Bool
  | [] => false
  | a :: rest => hhmmAt (a :: rest) || hasHHMM rest

/-- `hasTimeComponent` (main.ts:306-313): the non-string runtime guard,
`value.includes("T")`, and `value.includes(" ") && /\d{1,2}:\d{2}/.test(value)`. -/
def hasTimeComponent : Value → Bool
  | .vstr s => s.data.contains 'T' || (s.data.contains ' ' && hasHHMM s.data)
  | _ => false

/-- `validatePropertyType` (main.ts:241-272), the switch on the expected
type name with its fall-through aliases and permissive default. -/
def validatePropertyType (dp : String → Bool) (value : Value) (expectedType : String) : Bool :=
  if expectedType = "text" then
    isStringV value
  else if expectedType = "list" ∨ expectedType = "multitext" then
    isStringV value ||
      (match value with
       | .varr elems => elems.all isStringV
       | _ => false)
  else if expectedType = "number" then
    isNumberNonNaN value
  else if expectedType = "checkbox" ∨ expectedType = "boolean" then
    isBooleanV value
  else if expectedType = "date" then
    isValidDate dp value && ! hasTimeComponent value
  else if expectedType = "datetime" then
    isValidDate dp value && hasTimeComponent value
  else if expectedType = "tags" then
    (match value with
     | .varr elems => elems.all (fun v => isStringV v && startsWithHash v)
     | _ => false)
  else if expectedType = "aliases" then
    (match value with
     | .varr elems => elems.all isStringV
     | _ => false)
  else
    true

/-- `getValueType` (main.ts:274-291): the inference cascade.  A NaN number
falls through the `!isNaN` arm to the final `typeof value` fallback. -/
def getValueType (dp : String → Bool) (value : Value) : String :=
  match value with
  | .vnull => "null"
  | .vstr s =>
      if isValidDate dp (Value.vstr s) then
        if hasTimeComponent (Value.vstr s) then "datetime" else "date"
      else "text"
  | .vnum n => if ! jsIsNaN n then "number" else jsTypeof (Value.vnum n)
  | .vbool _ => "checkbox"
  | .varr elems =>
      if elems.all (fun v => isStringV v && startsWithHash v) then "tags"
      else if elems.all isStringV then "list"
      else "array"

/-- A mismatch finding as pushed at main.ts:225-230. -/
structure ValidationError where
  property : String
  expected : String
  actual : String
  message : String
deriving DecidableEq

/-- `IGNORED_PROPERTIES` (main.ts:16). -/
def IGNORED_PROPERTIES : List String := ["position", "aliases", "tags"]

/-- First-match association lookup: `this.propertyTypes[property]` on the
schema object and `Map.get` on the cache (keys are unique in both). -/
def lookupProp {α : Type} : List (String × α) → String → Option α
  | [], _ => none
  | (k, v) :: rest, key => if k == key then some v else lookupProp rest key

/-- The per-property loop of `validateFile` (main.ts:214-232): skip ignored
properties, skip a falsy schema entry (absent key or empty string), push a
mismatch finding when validation fails. -/
def validateEntries (dp : String → Bool) (pts : List (String × String)) :
    List (String × Value) → List ValidationError
  | [] => []
  | (property, value) :: rest =>
      if IGNORED_PROPERTIES.contains property then
        validateEntries dp pts rest
      else
        match lookupProp pts property with
        | none => validateEntries dp pts rest
        | some expectedType =>
          if expectedType = "" then
            validateEntries dp pts rest
          else
            let actualType := getValueType dp value
            if validatePropertyType dp value expectedType then
              validateEntries dp pts rest
            else
              { property := property
                expected := expectedType
                actual := actualType
                message := "expected " ++ expectedType ++ ", got " ++ actualType } ::
                validateEntries dp pts rest

/-- A value of the `validationCache` map (main.ts:22). -/
structure CacheEntry where
  mtime : Int
  errors : List ValidationError
deriving DecidableEq

/-- The `validationCache : Map<string, {mtime, errors}>`, keyed by file path. -/
abbrev Cache := List (String × CacheEntry)

/-- `Map.set`: overwrite the entry at the key, or append a fresh one. -/
def cacheSet : Cache → String → CacheEntry → Cache
  | [], k, e => [(k, e)]
  | (k0, e0) :: rest, k, e =>
      if k0 == k then (k, e) :: rest else (k0, e0) :: cacheSet rest k e

/-- The part of a `TFile` the validator reads: `file.path`,
`file.stat.mtime`, and the metadata cache's frontmatter for the file
(`none` models a falsy `metadata?.frontmatter`). -/
structure TFileRec where
  path : String
  mtime : Int
  frontmatter : Option (List (String × Value))

/-- The cache-miss tail of `validateFile` (main.ts:202-237): recompute the
error list from the frontmatter and write `(mtime, errors)` back. -/
def validateFileRecompute (dp : String → Bool) (pts : List (String × String))
    (cache : Cache) (file : TFileRec) : List ValidationError × Cache × Bool :=
  match file.frontmatter with
  | none => ([], cacheSet cache file.path ⟨file.mtime, []⟩, false)
  | some fm =>
      let errors := validateEntries dp pts fm
      (errors, cacheSet cache file.path ⟨file.mtime, errors⟩, false)

/-- `validateFile` (main.ts:192-238) as a state transformer on the cache.
The third component records whether the cached-result branch was taken
(the `console.log` branch at main.ts:198): `true` means the stored entry
was returned with no inference or validation run. -/
def validateFile (dp : String → Bool) (pts : List (String × String))
    (cache : Cache) (file : TFileRec) : List ValidationError × Cache × Bool :=
  match lookupProp cache file.path with
  | some cached =>
      if cached.mtime = file.mtime then
        (cached.errors, cache, true)
      else
        validateFileRecompute dp pts cache file
  | none => validateFileRecompute dp pts cache file

/-- The error list `validateFile` computes on a cache miss: empty for
absent frontmatter, otherwise the property loop's output. -/
def freshErrors (dp : String → Bool) (pts : List (String × String)) :
    Option (List (String × Value)) → List ValidationError
  | none => []
  | some fm => validateEntries dp pts fm

/-- Modelled from the spec's words for claim C5 (the source's
`hasTimeComponent` is the authority being compared against): the string
contains a `T`, or a space *immediately* followed by one or two digits, a
colon and two digits. -/
def hhmmStart : List Char → Bool
  | a :: ':' :: b :: c :: _ => a.isDigit && b.isDigit && c.isDigit
  | a :: a2 :: ':' :: b :: c :: _ => a.isDigit && a2.isDigit && b.isDigit && c.isDigit
  | _ => false

/-- Modelled from the spec's words for claim C5: some space in the string
is immediately followed by an HH:MM pattern. -/
def spaceThenHHMM : List Char → Bool
  | [] => false
  | ' ' :: rest => hhmmStart rest || spaceThenHHMM rest
  | _ :: rest => spaceThenHHMM rest

/-- Modelled from the spec's words for claim C5: the claimed reading of the
time-component test. -/
def specHasTimeComponent (s : String) : Bool :=
  s.data.contains 'T' || spaceThenHHMM s.data

/-- Modelled from the spec's words for claim C4: the claimed `number` rule,
"value is numeric and finite (not NaN)". -/
def specNumberRule : Value → Bool
  | .vnum (.finite _) => true
  | _ => false

/-- The variant domain named by claim C10: null, string, finite non-NaN
number, boolean, or a sequence of such scalars. -/
def isScalarOK : Value → Bool
  | .vnull => true
  | .vstr _ => true
  | .vnum (.finite _) => true
  | .vbool _ => true
  | _ => false

/-- Membership in claim C10's variant domain. -/
def inVariantDomain : Value → Bool
  | .varr elems => elems.all isScalarOK
  | v => isScalarOK v

/-- The ten expected-type names the validator's switch recognizes. -/
def knownTypeNames : List String :=
  ["text", "list", "multitext", "number", "checkbox", "boolean",
   "date", "datetime", "tags", "aliases"]

/-- A concrete `Date.parse` oracle that never parses: `Date.parse` on the
strings used in the concrete instances below returns NaN in the host. -/
def dpFalse : String → Bool := fun _ => false

/-- A concrete cache entry for the concrete instances below. -/
def entryW : CacheEntry := ⟨1, []⟩

/-- A concrete cache holding `entryW` under the key `"a.md"`. -/
def cacheW : Cache := [("a.md", entryW)]

/-- A concrete file whose path and mtime match `cacheW`'s entry. -/
def fileW : TFileRec := ⟨"a.md", 1, none⟩

theorem validateEntries_mem (dp : String → Bool) (pts : List (String × String))
    (fm : List (String × Value)) (e : ValidationError)
    (h : e ∈ validateEntries dp pts fm) :
    e.message = "expected " ++ e.expected ++ ", got " ++ e.actual ∧
    IGNORED_PROPERTIES.contains e.property = false ∧
    lookupProp pts e.property = some e.expected ∧
    e.expected ≠ "" ∧
    e.property ∈ fm.map Prod.fst := by
  induction fm with
  | nil => simp [validateEntries] at h
  | cons head rest ih =>
      obtain ⟨property, value⟩ := head
      simp only [validateEntries] at h
      split at h
      case isTrue hig =>
        obtain ⟨h1, h2, h3, h4, h5⟩ := ih h
        exact ⟨h1, h2, h3, h4, List.mem_cons_of_mem _ h5⟩
      case isFalse hig =>
        split at h
        case h_1 =>
          obtain ⟨h1, h2, h3, h4, h5⟩ := ih h
          exact ⟨h1, h2, h3, h4, List.mem_cons_of_mem _ h5⟩
        case h_2 expectedType heq =>
          split at h
          case isTrue =>
            obtain ⟨h1, h2, h3, h4, h5⟩ := ih h
            exact ⟨h1, h2, h3, h4, List.mem_cons_of_mem _ h5⟩
          case isFalse hne =>
            split at h
            case isTrue =>
              obtain ⟨h1, h2, h3, h4, h5⟩ := ih h
              exact ⟨h1, h2, h3, h4, List.mem_cons_of_mem _ h5⟩
            case isFalse hval =>
              rcases List.mem_cons.mp h with he | hrest
              · subst he
                refine ⟨rfl, ?_, ?_, hne, ?_⟩
                · simpa using hig
                · simpa using heq
                · simp
              · obtain ⟨h1, h2, h3, h4, h5⟩ := ih hrest
                exact ⟨h1, h2, h3, h4, List.mem_cons_of_mem _ h5⟩

theorem lookupProp_cacheSet_self (c : Cache) (k : String) (e : CacheEntry) :
    lookupProp (cacheSet c k e) k = some e := by
  induction c with
  | nil => simp [cacheSet, lookupProp]
  | cons head rest ih =>
      obtain ⟨k0, e0⟩ := head
      by_cases hk : k0 == k
      · simp [cacheSet, hk, lookupProp]
      · simp only [cacheSet]
        rw [if_neg hk]
        simp [lookupProp, hk, ih]

theorem validateFileRecompute_eq (dp : String → Bool) (pts : List (String × String))
    (cache : Cache) (file : TFileRec) :
    validateFileRecompute dp pts cache file =
      (freshErrors dp pts file.frontmatter,
       cacheSet cache file.path ⟨file.mtime, freshErrors dp pts file.frontmatter⟩,
       false) := by
  cases hfm : file.frontmatter with
  | none => simp [validateFileRecompute, freshErrors, hfm]
  | some fm => simp [validateFileRecompute, freshErrors, hfm]

theorem hhmmAt_iff (l : List Char) :
    hhmmAt l = true ↔ ∃ a b c post, l = a :: ':' :: b :: c :: post ∧
      a.isDigit = true ∧ b.isDigit = true ∧ c.isDigit = true := by
  match l with
  | [] => simp [hhmmAt]
  | [a] => simp [hhmmAt]
  | [a, b] => simp [hhmmAt]
  | [a, b, c] => simp [hhmmAt]
  | a :: b :: c :: d :: post =>
      simp only [hhmmAt, Bool.and_eq_true, beq_iff_eq]
      constructor
      · rintro ⟨⟨⟨ha, hb⟩, hc⟩, hd⟩
        exact ⟨a, c, d, post, by rw [hb], ha, hc, hd⟩
      · rintro ⟨a', b', c', post', heq, ha', hb', hc'⟩
        simp only [List.cons.injEq] at heq
        obtain ⟨rfl, rfl, rfl, rfl, rfl⟩ := heq
        exact ⟨⟨⟨ha', rfl⟩, hb'⟩, hc'⟩

theorem hasHHMM_iff (l : List Char) :
    hasHHMM l = true ↔ ∃ pre a b c post,
      l = pre ++ a :: ':' :: b :: c :: post ∧
      a.isDigit = true ∧ b.isDigit = true ∧ c.isDigit = true := by
  induction l with
  | nil =>
      simp only [hasHHMM]
      constructor
      · intro h; exact absurd h (by simp)
      · rintro ⟨pre, a, b, c, post, hl, -⟩
        cases pre <;> simp at hl
  | cons x rest ih =>
      rw [hasHHMM, Bool.or_eq_true, ih, hhmmAt_iff]
      constructor
      · rintro (⟨a, b, c, post, hl, ha, hb, hc⟩ | ⟨pre, a, b, c, post, hl, ha, hb, hc⟩)
        · exact ⟨[], a, b, c, post, by simp [hl], ha, hb, hc⟩
        · exact ⟨x :: pre, a, b, c, post, by simp [hl], ha, hb, hc⟩
      · rintro ⟨pre, a, b, c, post, hl, ha, hb, hc⟩
        cases pre with
        | nil => exact Or.inl ⟨a, b, c, post, by simpa using hl, ha, hb, hc⟩
        | cons y pre' =>
            simp only [List.cons_append, List.cons.injEq] at hl
            obtain ⟨rfl, hrest⟩ := hl
            exact Or.inr ⟨pre', a, b, c, post, hrest, ha, hb, hc⟩

theorem isStringV_iff (v : Value) : isStringV v = true ↔ ∃ s, v = Value.vstr s := by
  cases v <;> simp [isStringV]

/-- C1: a stored cache entry is returned, with no recomputation and no cache
write, iff its stored mtime equals the file's current mtime; when the
markers differ `validateFile` recomputes the error list from the current
frontmatter and overwrites the entry with the current mtime and the new
result; a second call right after any call is a pure cache hit returning
the same errors. -/
theorem validateFile_cache_policy (dp : String → Bool) (pts : List (String × String))
    (cache : Cache) (file : TFileRec) (cached : CacheEntry)
    (h : lookupProp cache file.path = some cached) :
    ((validateFile dp pts cache file).2.2 = true ↔ cached.mtime = file.mtime) ∧
    (cached.mtime = file.mtime →
      validateFile dp pts cache file = (cached.errors, cache, true)) ∧
    (cached.mtime ≠ file.mtime →
      (validateFile dp pts cache file).1 = freshErrors dp pts file.frontmatter ∧
      lookupProp (validateFile dp pts cache file).2.1 file.path =
        some ⟨file.mtime, (validateFile dp pts cache file).1⟩) ∧
    validateFile dp pts (validateFile dp pts cache file).2.1 file =
      ((validateFile dp pts cache file).1, (validateFile dp pts cache file).2.1, true) := by
  by_cases hm : cached.mtime = file.mtime
  · have hv : validateFile dp pts cache file = (cached.errors, cache, true) := by
      simp [validateFile, h, hm]
    refine ⟨by simp [hv, hm], fun _ => hv, fun hne => absurd hm hne, ?_⟩
    rw [hv]
    simp [validateFile, h, hm]
  · have hv : validateFile dp pts cache file =
        (freshErrors dp pts file.frontmatter,
         cacheSet cache file.path ⟨file.mtime, freshErrors dp pts file.frontmatter⟩,
         false) := by
      simp [validateFile, h, hm, validateFileRecompute_eq]
    refine ⟨by simp [hv, hm], fun heq => absurd heq hm, fun _ => ⟨by rw [hv], ?_⟩, ?_⟩
    · rw [hv]
      simp [lookupProp_cacheSet_self]
    · rw [hv]
      simp [validateFile, lookupProp_cacheSet_self]

/-- C2: every error entry's message is the literal string
`"expected {expected}, got {actual}"` built from its own fields, and
Scenario A — schema `priority ↦ number`, property `priority = "high"` —
yields exactly the single error
`{priority, number, text, "expected number, got text"}`. -/
theorem validateFile_message_form_and_scenarioA
    (dp : String → Bool) (pts : List (String × String)) (fm : List (String × Value))
    (e : ValidationError) (h1 : e ∈ validateEntries dp pts fm) (h2 : dp "high" = false) :
    e.message = "expected " ++ e.expected ++ ", got " ++ e.actual ∧
    (validateFile dp [("priority", "number")] []
        ⟨"note.md", 5, some [("priority", Value.vstr "high")]⟩).1 =
      [{ property := "priority", expected := "number", actual := "text",
         message := "expected number, got text" }] := by
  refine ⟨(validateEntries_mem dp pts fm e h1).1, ?_⟩
  have hiv : isValidDate dp (Value.vstr "high") = false := by
    simp [isValidDate, h2]; decide
  simp [validateFile, lookupProp, validateFileRecompute, validateEntries,
    IGNORED_PROPERTIES, getValueType, hiv, validatePropertyType, isNumberNonNaN]

/-- C3 counterexample: a property that is present with a null value, under a
declared type whose rule rejects null, does produce a mismatch finding —
`priority ↦ number` with `priority: null` yields one error, refuting the
claim that a null-valued property never produces an error. -/
theorem validateEntries_null_value_errors :
    validateEntries dpFalse [("priority", "number")] [("priority", Value.vnull)] =
      [{ property := "priority", expected := "number", actual := "null",
         message := "expected number, got null" }] := by decide

/-- C3 (amended): no error entry arises for a property the schema leaves
undeclared (or maps to the empty string), and every error's property
occurs in the record's property map; a property *present* with a null
value, however, is validated like any other value. -/
theorem validateEntries_errors_only_declared_present
    (dp : String → Bool) (pts : List (String × String)) (fm : List (String × Value))
    (e : ValidationError) (h : e ∈ validateEntries dp pts fm) :
    lookupProp pts e.property = some e.expected ∧ e.expected ≠ "" ∧
    e.property ∈ fm.map Prod.fst :=
  ⟨(validateEntries_mem dp pts fm e h).2.2.1,
   (validateEntries_mem dp pts fm e h).2.2.2.1,
   (validateEntries_mem dp pts fm e h).2.2.2.2⟩

/-- C4 counterexample: an infinite number passes the `number` rule
(`typeof v === "number" && !isNaN(v)` is true of Infinity), while the
claimed rule "numeric and finite (not NaN)" rejects it. -/
theorem number_rule_accepts_infinity :
    validatePropertyType dpFalse (Value.vnum JSNumber.posInf) "number" = true ∧
    specNumberRule (Value.vnum JSNumber.posInf) = false := by decide

/-- C4 (amended): `validate(v, "number")` is true iff `v` is numeric and not
NaN — infinite numeric values are accepted; non-numbers and NaN are
rejected. -/
theorem number_rule_iff_not_nan (dp : String → Bool) (v : Value) :
    validatePropertyType dp v "number" = true ↔
      ∃ n, v = Value.vnum n ∧ jsIsNaN n = false := by
  cases v with
  | vnull => simp [validatePropertyType, isNumberNonNaN]
  | vstr s => simp [validatePropertyType, isNumberNonNaN]
  | vnum n => cases n <;> simp [validatePropertyType, isNumberNonNaN, jsIsNaN]
  | vbool b => simp [validatePropertyType, isNumberNonNaN]
  | varr l => simp [validatePropertyType, isNumberNonNaN]

/-- C5 counterexample: on `"12:34 x"` the code's `hasTimeComponent` is true
(the string contains a space, and an HH:MM pattern *elsewhere*), while the
claimed reading — a space immediately followed by an HH:MM pattern — is
false there. -/
theorem hasTimeComponent_space_pattern_decoupled :
    hasTimeComponent (Value.vstr "12:34 x") = true ∧
    specHasTimeComponent "12:34 x" = false := by decide

/-- C5 (amended): `hasTimeComponent(s)` is true iff `s` contains a literal
`T`, or `s` contains a space *and*, anywhere in `s` (not necessarily after
the space), a digit followed by a colon and two digits. -/
theorem hasTimeComponent_iff (s : String) :
    hasTimeComponent (Value.vstr s) = true ↔
      'T' ∈ s.data ∨
      (' ' ∈ s.data ∧ ∃ pre a b c post,
        s.data = pre ++ a :: ':' :: b :: c :: post ∧
        a.isDigit = true ∧ b.isDigit = true ∧ c.isDigit = true) := by
  simp [hasTimeComponent, hasHHMM_iff]

/-- C6: for a string passing the date-shape test, exactly one of
`validate(s, "date")` and `validate(s, "datetime")` holds, and which one is
determined solely by `hasTimeComponent`. -/
theorem date_datetime_partition (dp : String → Bool) (s : String)
    (h : isValidDate dp (Value.vstr s) = true) :
    (validatePropertyType dp (Value.vstr s) "date" = true ↔
       hasTimeComponent (Value.vstr s) = false) ∧
    (validatePropertyType dp (Value.vstr s) "datetime" = true ↔
       hasTimeComponent (Value.vstr s) = true) ∧
    validatePropertyType dp (Value.vstr s) "date" ≠
      validatePropertyType dp (Value.vstr s) "datetime" := by
  have hd : validatePropertyType dp (Value.vstr s) "date" =
      (isValidDate dp (Value.vstr s) && ! hasTimeComponent (Value.vstr s)) := rfl
  have hdt : validatePropertyType dp (Value.vstr s) "datetime" =
      (isValidDate dp (Value.vstr s) && hasTimeComponent (Value.vstr s)) := rfl
  rw [hd, hdt, h]
  cases htc : hasTimeComponent (Value.vstr s) <;> simp

/-- C7: an expected type name outside the recognized set validates every
value (the permissive default arm of the switch). -/
theorem unknown_type_always_valid (dp : String → Bool) (v : Value) (name : String)
    (h : name ∉ knownTypeNames) :
    validatePropertyType dp v name = true := by
  simp only [knownTypeNames, List.mem_cons, List.not_mem_nil, or_false] at h
  push_neg at h
  obtain ⟨h1, h2, h3, h4, h5, h6, h7, h8, h9, h10⟩ := h
  simp [validatePropertyType, h1, h2, h3, h4, h5, h6, h7, h8, h9, h10]

/-- C8: no error entry ever carries the property name `tags`, `aliases` or
`position` — the ignore-list is skipped before any schema lookup or
validation, whatever the schema and values are. -/
theorem ignored_properties_never_error
    (dp : String → Bool) (pts : List (String × String)) (fm : List (String × Value))
    (e : ValidationError) (h : e ∈ validateEntries dp pts fm) :
    e.property ≠ "tags" ∧ e.property ≠ "aliases" ∧ e.property ≠ "position" := by
  have h2 := (validateEntries_mem dp pts fm e h).2.1
  refine ⟨?_, ?_, ?_⟩ <;> intro hEq <;> rw [hEq] at h2 <;> exact absurd h2 (by decide)

/-- C9: `list` and `multitext` have the same rule, which accepts exactly the
scalar strings and the arrays all of whose elements are strings; in
particular the bare string "solo" validates against `list`. -/
theorem list_multitext_rule (dp : String → Bool) (v : Value) :
    validatePropertyType dp v "list" = validatePropertyType dp v "multitext" ∧
    (validatePropertyType dp v "list" = true ↔
      (∃ s, v = Value.vstr s) ∨
      (∃ l, v = Value.varr l ∧ ∀ x ∈ l, ∃ s, x = Value.vstr s)) ∧
    validatePropertyType dp (Value.vstr "solo") "list" = true := by
  refine ⟨rfl, ?_, rfl⟩
  cases v with
  | vnull => simp [validatePropertyType, isStringV]
  | vstr s => simp [validatePropertyType, isStringV]
  | vnum n => simp [validatePropertyType, isStringV]
  | vbool b => simp [validatePropertyType, isStringV]
  | varr l =>
      have hb : validatePropertyType dp (Value.varr l) "list" = l.all isStringV := rfl
      rw [hb]
      simp [List.all_eq_true, isStringV_iff]

/-- C10: every raw value in the variant domain (null, string, finite
non-NaN number, boolean, or a sequence of such scalars) validates against
its own inferred type: `validate(v, infer(v)) = true`. -/
theorem validate_infer_consistent (dp : String → Bool) (v : Value)
    (h : inVariantDomain v = true) :
    validatePropertyType dp v (getValueType dp v) = true := by
  cases v with
  | vnull => rfl
  | vbool b => rfl
  | vnum n =>
      cases n with
      | nan => simp [inVariantDomain, isScalarOK] at h
      | posInf => simp [inVariantDomain, isScalarOK] at h
      | negInf => simp [inVariantDomain, isScalarOK] at h
      | finite q => rfl
  | vstr s =>
      cases hiv : isValidDate dp (Value.vstr s) with
      | false => simp [getValueType, validatePropertyType, hiv, isStringV]
      | true =>
          cases htc : hasTimeComponent (Value.vstr s) with
          | false => simp [getValueType, validatePropertyType, hiv, htc]
          | true => simp [getValueType, validatePropertyType, hiv, htc]
  | varr l =>
      cases htags : l.all (fun v => isStringV v && startsWithHash v) with
      | true =>
          have hg : getValueType dp (Value.varr l) = "tags" := by
            simp only [getValueType]
            rw [htags]
            simp
          rw [hg]
          have hb : validatePropertyType dp (Value.varr l) "tags" =
              l.all (fun v => isStringV v && startsWithHash v) := rfl
          rw [hb, htags]
      | false =>
          cases hstr : l.all isStringV with
          | true =>
              have hg : getValueType dp (Value.varr l) = "list" := by
                simp only [getValueType]
                rw [htags, hstr]
                simp
              rw [hg]
              have hb : validatePropertyType dp (Value.varr l) "list" =
                  l.all isStringV := rfl
              rw [hb, hstr]
          | false =>
              have hg : getValueType dp (Value.varr l) = "array" := by
                simp only [getValueType]
                rw [htags, hstr]
                simp
              rw [hg]
              rfl

/-- C1 witness: the cache policy at a concrete hit (entry and file share
path `a.md` and mtime 1). -/
theorem validateFile_cache_policy_witness :
    lookupProp cacheW fileW.path = some entryW ∧
    ((((validateFile dpFalse [] cacheW fileW).2.2 = true) ↔
        entryW.mtime = fileW.mtime) ∧
     (entryW.mtime = fileW.mtime →
       validateFile dpFalse [] cacheW fileW = (entryW.errors, cacheW, true)) ∧
     (entryW.mtime ≠ fileW.mtime →
       (validateFile dpFalse [] cacheW fileW).1 =
         freshErrors dpFalse [] fileW.frontmatter ∧
       lookupProp (validateFile dpFalse [] cacheW fileW).2.1 fileW.path =
         some ⟨fileW.mtime, (validateFile dpFalse [] cacheW fileW).1⟩) ∧
     validateFile dpFalse [] (validateFile dpFalse [] cacheW fileW).2.1 fileW =
       ((validateFile dpFalse [] cacheW fileW).1,
        (validateFile dpFalse [] cacheW fileW).2.1, true)) :=
  ⟨by decide, validateFile_cache_policy dpFalse [] cacheW fileW entryW (by decide)⟩

/-- C2 witness: the message form and Scenario A at the concrete inputs. -/
theorem validateFile_message_form_and_scenarioA_witness :
    ({ property := "priority", expected := "number", actual := "text",
       message := "expected number, got text" } : ValidationError) ∈
      validateEntries dpFalse [("priority", "number")] [("priority", Value.vstr "high")] ∧
    dpFalse "high" = false ∧
    (("expected number, got text" : String) =
        "expected " ++ "number" ++ ", got " ++ "text" ∧
     (validateFile dpFalse [("priority", "number")] []
         ⟨"note.md", 5, some [("priority", Value.vstr "high")]⟩).1 =
       [{ property := "priority", expected := "number", actual := "text",
          message := "expected number, got text" }]) :=
  ⟨by decide, by decide,
   validateFile_message_form_and_scenarioA dpFalse [("priority", "number")]
     [("priority", Value.vstr "high")]
     { property := "priority", expected := "number", actual := "text",
       message := "expected number, got text" } (by decide) (by decide)⟩

/-- C3 witness: the amended statement at a concrete error-producing input. -/
theorem validateEntries_errors_only_declared_present_witness :
    (⟨"a", "text", "checkbox", "expected text, got checkbox"⟩ : ValidationError) ∈
      validateEntries dpFalse [("a", "text")] [("a", Value.vbool true)] ∧
    (lookupProp [("a", "text")] "a" = some "text" ∧ ("text" : String) ≠ "" ∧
     ("a" : String) ∈ [("a", Value.vbool true)].map Prod.fst) :=
  ⟨by decide,
   validateEntries_errors_only_declared_present dpFalse [("a", "text")]
     [("a", Value.vbool true)]
     ⟨"a", "text", "checkbox", "expected text, got checkbox"⟩ (by decide)⟩

/-- C6 witness: the partition at the date-shaped string `2024-03-01`. -/
theorem date_datetime_partition_witness :
    isValidDate dpFalse (Value.vstr "2024-03-01") = true ∧
    ((validatePropertyType dpFalse (Value.vstr "2024-03-01") "date" = true ↔
        hasTimeComponent (Value.vstr "2024-03-01") = false) ∧
     (validatePropertyType dpFalse (Value.vstr "2024-03-01") "datetime" = true ↔
        hasTimeComponent (Value.vstr "2024-03-01") = true) ∧
     validatePropertyType dpFalse (Value.vstr "2024-03-01") "date" ≠
       validatePropertyType dpFalse (Value.vstr "2024-03-01") "datetime") :=
  ⟨by decide, date_datetime_partition dpFalse "2024-03-01" (by decide)⟩

/-- C7 witness: the unrecognized name `status` validates a null value. -/
theorem unknown_type_always_valid_witness :
    ("status" : String) ∉ knownTypeNames ∧
    validatePropertyType dpFalse Value.vnull "status" = true :=
  ⟨by decide, unknown_type_always_valid dpFalse Value.vnull "status" (by decide)⟩

/-- C8 witness: a concrete error's property is none of the ignored names. -/
theorem ignored_properties_never_error_witness :
    (⟨"b", "number", "checkbox", "expected number, got checkbox"⟩ : ValidationError) ∈
      validateEntries dpFalse [("b", "number")] [("b", Value.vbool false)] ∧
    (("b" : String) ≠ "tags" ∧ ("b" : String) ≠ "aliases" ∧ ("b" : String) ≠ "position") :=
  ⟨by decide,
   ignored_properties_never_error dpFalse [("b", "number")] [("b", Value.vbool false)]
     ⟨"b", "number", "checkbox", "expected number, got checkbox"⟩ (by decide)⟩

/-- C10 witness: the string `hello` infers `text` and validates against it. -/
theorem validate_infer_consistent_witness :
    inVariantDomain (Value.vstr "hello") = true ∧
    validatePropertyType dpFalse (Value.vstr "hello")
      (getValueType dpFalse (Value.vstr "hello")) = true :=
  ⟨by decide, validate_infer_consistent dpFalse (Value.vstr "hello") (by decide)⟩

end TypeChecker
